import Mathlib

set_option autoImplicit false

/-!
Verification development for the keyword-parser repository
(`keyword_parser.py`, `excel_manager.py`, `fill.py`).

The Python sources are shallowly embedded: Python runtime values become the
`PyVal` type, Python exceptions become the `PyErr` type and every fallible
operation returns `Except PyErr _`.  Loops bounded by a sheet's `max_row`
(`while current_row <= max_rows`) are translated into fuel-indexed structural
recursions whose fuel is exactly the number of remaining rows, and the
mutually recursive resolver functions carry an explicit fuel argument that
models Python's (finite) call stack: exhausting it corresponds to a
`RecursionError`.  All definitions are structurally recursive so that every
concrete run can be evaluated inside the kernel.
-/

/-- Python floats, modelled as exact (not necessarily reduced) fractions so
that the kernel can compute with them.  Every float the repository produces
in the verified claims is exact in binary floating point, where the two
semantics agree.  The denominator is always positive for values produced by
the embedding. -/
structure PyFloat where
  num : Int
  den : Nat
  deriving DecidableEq, Repr

/-- Python float addition (used by the `SUM` transform). -/
def PyFloat.add (a b : PyFloat) : PyFloat :=
  ⟨a.num * b.den + b.num * a.den, a.den * b.den⟩

/-- The float an `int` is coerced to. -/
def PyFloat.ofInt (n : Int) : PyFloat := ⟨n, 1⟩

/-- Python runtime values as used by the repository: cell contents, JSON
documents, resolver results. -/
inductive PyVal where
  | none
  | pbool (b : Bool)
  | pint (n : Int)
  | pfloat (q : PyFloat)
  | pstr (s : String)
  | plist (l : List PyVal)
  | pdict (l : List (String × PyVal))
  deriving Inhabited

/-- Python exceptions raised by the embedded code. `stopExecution` models
Streamlit's `st.stop()` (the resolution pass yields no output). -/
inductive PyErr where
  | valueError (msg : String)
  | typeError (msg : String)
  | indexError (msg : String)
  | keyError (msg : String)
  | nameError (name : String)
  | attributeError (msg : String)
  | recursionError
  | stopExecution
  deriving DecidableEq, Repr

deriving instance DecidableEq for Except

mutual

/-- Decidable equality for `PyVal` (written by hand because the automatic
derivation does not support the nested occurrence in `plist`/`pdict`). -/
def decEqPyVal : (a b : PyVal) → Decidable (a = b)
  | .none, .none => isTrue rfl
  | .pbool a, .pbool b =>
    match decEq a b with
    | isTrue h => isTrue (by rw [h])
    | isFalse h => isFalse (fun hh => h (by injection hh))
  | .pint a, .pint b =>
    match decEq a b with
    | isTrue h => isTrue (by rw [h])
    | isFalse h => isFalse (fun hh => h (by injection hh))
  | .pfloat a, .pfloat b =>
    match decEq a b with
    | isTrue h => isTrue (by rw [h])
    | isFalse h => isFalse (fun hh => h (by injection hh))
  | .pstr a, .pstr b =>
    match decEq a b with
    | isTrue h => isTrue (by rw [h])
    | isFalse h => isFalse (fun hh => h (by injection hh))
  | .plist a, .plist b =>
    match decEqPyValList a b with
    | isTrue h => isTrue (by rw [h])
    | isFalse h => isFalse (fun hh => h (by injection hh))
  | .pdict a, .pdict b =>
    match decEqPyValDict a b with
    | isTrue h => isTrue (by rw [h])
    | isFalse h => isFalse (fun hh => h (by injection hh))
  | .none, .pbool _ => isFalse nofun
  | .none, .pint _ => isFalse nofun
  | .none, .pfloat _ => isFalse nofun
  | .none, .pstr _ => isFalse nofun
  | .none, .plist _ => isFalse nofun
  | .none, .pdict _ => isFalse nofun
  | .pbool _, .none => isFalse nofun
  | .pbool _, .pint _ => isFalse nofun
  | .pbool _, .pfloat _ => isFalse nofun
  | .pbool _, .pstr _ => isFalse nofun
  | .pbool _, .plist _ => isFalse nofun
  | .pbool _, .pdict _ => isFalse nofun
  | .pint _, .none => isFalse nofun
  | .pint _, .pbool _ => isFalse nofun
  | .pint _, .pfloat _ => isFalse nofun
  | .pint _, .pstr _ => isFalse nofun
  | .pint _, .plist _ => isFalse nofun
  | .pint _, .pdict _ => isFalse nofun
  | .pfloat _, .none => isFalse nofun
  | .pfloat _, .pbool _ => isFalse nofun
  | .pfloat _, .pint _ => isFalse nofun
  | .pfloat _, .pstr _ => isFalse nofun
  | .pfloat _, .plist _ => isFalse nofun
  | .pfloat _, .pdict _ => isFalse nofun
  | .pstr _, .none => isFalse nofun
  | .pstr _, .pbool _ => isFalse nofun
  | .pstr _, .pint _ => isFalse nofun
  | .pstr _, .pfloat _ => isFalse nofun
  | .pstr _, .plist _ => isFalse nofun
  | .pstr _, .pdict _ => isFalse nofun
  | .plist _, .none => isFalse nofun
  | .plist _, .pbool _ => isFalse nofun
  | .plist _, .pint _ => isFalse nofun
  | .plist _, .pfloat _ => isFalse nofun
  | .plist _, .pstr _ => isFalse nofun
  | .plist _, .pdict _ => isFalse nofun
  | .pdict _, .none => isFalse nofun
  | .pdict _, .pbool _ => isFalse nofun
  | .pdict _, .pint _ => isFalse nofun
  | .pdict _, .pfloat _ => isFalse nofun
  | .pdict _, .pstr _ => isFalse nofun
  | .pdict _, .plist _ => isFalse nofun

/-- Decidable equality of `PyVal` lists. -/
def decEqPyValList : (a b : List PyVal) → Decidable (a = b)
  | [], [] => isTrue rfl
  | [], _ :: _ => isFalse nofun
  | _ :: _, [] => isFalse nofun
  | x :: xs, y :: ys =>
    match decEqPyVal x y with
    | isTrue h1 =>
      match decEqPyValList xs ys with
      | isTrue h2 => isTrue (by rw [h1, h2])
      | isFalse h2 => isFalse (fun hh => h2 (by injection hh))
    | isFalse h1 => isFalse (fun hh => h1 (by injection hh))

/-- Decidable equality of string-keyed `PyVal` dictionaries. -/
def decEqPyValDict : (a b : List (String × PyVal)) → Decidable (a = b)
  | [], [] => isTrue rfl
  | [], _ :: _ => isFalse nofun
  | _ :: _, [] => isFalse nofun
  | (k, x) :: xs, (k', y) :: ys =>
    match decEq k k' with
    | isTrue hk =>
      match decEqPyVal x y with
      | isTrue h1 =>
        match decEqPyValDict xs ys with
        | isTrue h2 => isTrue (by rw [hk, h1, h2])
        | isFalse h2 => isFalse (fun hh => by injection hh with hp ht; exact h2 ht)
      | isFalse h1 =>
        isFalse (fun hh => by
          injection hh with hp ht; exact h1 (by rw [Prod.ext_iff] at hp; exact hp.2))
    | isFalse hk =>
      isFalse (fun hh => by
        injection hh with hp ht; exact hk (by rw [Prod.ext_iff] at hp; exact hp.1))

end

instance : DecidableEq PyVal := decEqPyVal

/-! ### Python string primitives

Implemented over `List Char` with structural (or explicitly fuelled)
recursion so that the kernel can evaluate them. -/

/-- Worker for Python `str.split(sep)` with a non-empty separator; the fuel
is initialised to the length of the string plus one, which always suffices. -/
def splitListAux (sep : List Char) : Nat → List Char → List Char → List (List Char)
  | 0, acc, _ => [acc.reverse]
  | _ + 1, acc, [] => [acc.reverse]
  | fuel + 1, acc, c :: cs =>
    if sep.isPrefixOf (c :: cs) then
      acc.reverse :: splitListAux sep fuel [] ((c :: cs).drop sep.length)
    else
      splitListAux sep fuel (c :: acc) cs

/-- Python `s.split(sep)` (all occurrences, keeps empty fields). -/
def pySplit (s sep : String) : List String :=
  (splitListAux sep.data (s.data.length + 1) [] s.data).map (fun cs => String.mk cs)

/-- Python `sep.join(parts)`. -/
def joinSep (sep : String) : List String → String
  | [] => ""
  | [x] => x
  | x :: rest => x ++ sep ++ joinSep sep rest

/-- Python `s.split(sep, 1)` (at most one split). -/
def pySplitOnce (s sep : String) : List String :=
  match pySplit s sep with
  | [] => []
  | x :: rest => if rest.isEmpty then [x] else [x, joinSep sep rest]

/-- Python `s.strip()` (whitespace on both ends). -/
def pyStrip (s : String) : String :=
  String.mk (((s.data.dropWhile Char.isWhitespace).reverse.dropWhile Char.isWhitespace).reverse)

/-- Python `s.strip(c)` for a single strip character. -/
def pyStripChar (s : String) (c : Char) : String :=
  String.mk (((s.data.dropWhile (· = c)).reverse.dropWhile (· = c)).reverse)

/-- Python `s.upper()` (ASCII, which covers all keyword tokens). -/
def pyUpper (s : String) : String := String.mk (s.data.map Char.toUpper)

/-- Python `s.lower()` (ASCII). -/
def pyLower (s : String) : String := String.mk (s.data.map Char.toLower)

/-- Membership of a single character in a string (Python `c in s`). -/
def strContainsChar (s : String) (c : Char) : Bool := s.data.contains c

/-- Worker for substring search. -/
def subSearch (needle : List Char) : List Char → Bool
  | [] => needle.isEmpty
  | c :: t => needle.isPrefixOf (c :: t) || subSearch needle t

/-- Python `sub in hay` for strings. -/
def strHasSub (hay sub : String) : Bool := subSearch sub.data hay.data

/-- Python `s.startswith(pre)`. -/
def strStarts (s pre : String) : Bool := pre.data.isPrefixOf s.data

/-- Python `s.endswith(suf)`. -/
def strEnds (s suf : String) : Bool := suf.data.isSuffixOf s.data

/-- Worker for Python `hay.replace(pat, rep, 1)`. -/
def replaceFirstList (pat rep : List Char) : List Char → List Char
  | [] => if pat.isEmpty then rep else []
  | c :: t =>
    if pat.isPrefixOf (c :: t) then rep ++ (c :: t).drop pat.length
    else c :: replaceFirstList pat rep t

/-- Python `hay.replace(pat, rep, 1)` (replace the first occurrence only). -/
def pyReplaceFirst (s pat rep : String) : String :=
  String.mk (replaceFirstList pat.data rep.data s.data)

/-- Worker for Python `hay.replace(pat, rep)` with a non-empty pattern. -/
def replaceAllList (pat rep : List Char) : Nat → List Char → List Char
  | 0, hay => hay
  | fuel + 1, hay =>
    match hay with
    | [] => []
    | c :: t =>
      if !pat.isEmpty && pat.isPrefixOf (c :: t) then
        rep ++ replaceAllList pat rep fuel ((c :: t).drop pat.length)
      else
        c :: replaceAllList pat rep fuel t

/-- Python `hay.replace(pat, rep)` (all occurrences, non-empty pattern). -/
def pyReplaceAll (s pat rep : String) : String :=
  String.mk (replaceAllList pat.data rep.data (s.data.length + 1) s.data)

/-- Python `s.ljust(w)`. -/
def pyLjust (s : String) (w : Nat) : String :=
  String.mk (s.data ++ List.replicate (w - s.data.length) ' ')

/-- Python `s.rjust(w)`. -/
def pyRjust (s : String) (w : Nat) : String :=
  String.mk (List.replicate (w - s.data.length) ' ' ++ s.data)

/-- Value of a string of decimal digits. -/
def digitsToNat (ds : List Char) : Nat :=
  ds.foldl (fun a c => a * 10 + (c.toNat - '0'.toNat)) 0

/-- Python `int(s)`: optional surrounding whitespace, optional sign, decimal
digits.  (Underscore digit grouping, accepted by CPython, is not modelled;
the repository never uses it.) -/
def pyIntParse (s : String) : Option Int :=
  let t := (pyStrip s).data
  match t with
  | '-' :: ds =>
    if !ds.isEmpty && ds.all Char.isDigit then some (-(digitsToNat ds : Int)) else Option.none
  | '+' :: ds =>
    if !ds.isEmpty && ds.all Char.isDigit then some (digitsToNat ds : Int) else Option.none
  | ds =>
    if !ds.isEmpty && ds.all Char.isDigit then some (digitsToNat ds : Int) else Option.none

/-- Python `float(s)` restricted to plain decimal literals (optional sign,
digits, optional fractional part).  Exponent and special forms are not
modelled; the repository's data never uses them. -/
def pyFloatParse (s : String) : Option PyFloat :=
  let t := (pyStrip s).data
  let core : List Char → Option PyFloat := fun ds =>
    match splitListAux ['.'] (ds.length + 1) [] ds with
    | [ip] =>
      if !ip.isEmpty && ip.all Char.isDigit then some ⟨(digitsToNat ip : Int), 1⟩
      else Option.none
    | [ip, fp] =>
      if (ip.all Char.isDigit && fp.all Char.isDigit) && !(ip.isEmpty && fp.isEmpty) then
        some ⟨(digitsToNat ip : Int) * (10 ^ fp.length : Nat) + (digitsToNat fp : Int),
              10 ^ fp.length⟩
      else Option.none
    | _ => Option.none
  match t with
  | '-' :: ds => (core ds).map (fun q => ⟨-q.num, q.den⟩)
  | '+' :: ds => core ds
  | ds => core ds

mutual

/-- Python `repr(v)`. -/
def pyRepr : PyVal → String
  | .none => "None"
  | .pbool b => if b then "True" else "False"
  | .pint n => Int.repr n
  | .pfloat q =>
    -- Python prints floats in decimal; integral values (the only floats the
    -- verified claims produce) print with a trailing ".0".
    if q.den = 1 then Int.repr q.num ++ ".0"
    else Int.repr q.num ++ "/" ++ Nat.repr q.den
  | .pstr s => "'" ++ s ++ "'"
  | .plist l => "[" ++ pyReprList l ++ "]"
  | .pdict l => "\x7b" ++ pyReprDict l ++ "\x7d"

/-- `repr` of the elements of a list, comma separated. -/
def pyReprList : List PyVal → String
  | [] => ""
  | [x] => pyRepr x
  | x :: rest => pyRepr x ++ ", " ++ pyReprList rest

/-- `repr` of the entries of a dict, comma separated. -/
def pyReprDict : List (String × PyVal) → String
  | [] => ""
  | [(k, v)] => "'" ++ k ++ "': " ++ pyRepr v
  | (k, v) :: rest => "'" ++ k ++ "': " ++ pyRepr v ++ ", " ++ pyReprDict rest

end

/-- Python `str(v)`. -/
def pyStr : PyVal → String
  | .pstr s => s
  | v => pyRepr v

/-- Ordered string-keyed dictionary insert (Python `d[k] = v`): an existing
key keeps its position and gets the new value, a new key is appended. -/
def dictInsert {α : Type} : List (String × α) → String → α → List (String × α)
  | [], k, v => [(k, v)]
  | (k', v') :: rest, k, v =>
    if k' = k then (k, v) :: rest else (k', v') :: dictInsert rest k v

/-- Dictionary lookup (Python `d[k]` / `k in d`). -/
def assocLookup {α : Type} : List (String × α) → String → Option α
  | [], _ => Option.none
  | (k', v) :: rest, k => if k' = k then some v else assocLookup rest k

example : pySplit "a!b!" "!" = ["a", "b", ""] := by decide
example : pySplit "" "!" = [""] := by decide
example : pySplitOnce "XL!CELL!A1" "!" = ["XL", "CELL!A1"] := by decide
example : pyReplaceFirst "xKyKz" "K" "_" = "x_yKz" := by decide
example : pyIntParse " -12 " = some (-12) := by decide
example : pyFloatParse "1234.5" = some ⟨12345, 10⟩ := by decide
example : strHasSub "hello" "ell" = true := by decide
example : pyStr (.plist [.pint 1, .pstr "a"]) = "[1, 'a']" := by decide

/-! ### Numeric formatting (`excelManager._format_numeric_value`)

Python renders numeric cells with `f"{value:,.2f}"`: thousands separators
and exactly two decimals, rounding half to even.  For the exact fractions of
`PyFloat` this is computed with integer arithmetic only. -/

/-- The value in hundredths (cents) of a `PyFloat`, rounded half to even
(the rounding used by Python's `format`). -/
def roundCentsHalfEven (q : PyFloat) : Int :=
  let a := q.num * 100
  let b : Int := q.den
  let fl := Int.fdiv a b
  let r2 := 2 * (a - fl * b)
  if r2 < b then fl
  else if b < r2 then fl + 1
  else if fl % 2 = 0 then fl else fl + 1

/-- Comma insertion worker: runs over the reversed digit list, emitting a
comma before every further digit once three have been emitted. -/
def commaRev : Nat → List Char → List Char
  | _, [] => []
  | k, c :: rest => if k = 3 then ',' :: c :: commaRev 1 rest else c :: commaRev (k + 1) rest

/-- A natural number with thousands separators (`1234567 ↦ "1,234,567"`). -/
def commaFmtNat (n : Nat) : String :=
  String.mk ((commaRev 0 (Nat.repr n).data.reverse).reverse)

/-- Python `f"{q:,.2f}"`. -/
def formatFloat2 (q : PyFloat) : String :=
  let c := roundCentsHalfEven q
  let sign := if c < 0 then "-" else ""
  let a := c.natAbs
  sign ++ commaFmtNat (a / 100) ++ "." ++
    (if a % 100 < 10 then "0" ++ Nat.repr (a % 100) else Nat.repr (a % 100))

/-- `excelManager._format_numeric_value`: `None` becomes `''`, numeric values
(`bool` is a numeric type in Python) are formatted with commas and two
decimals plus an optional `$` prefix, everything else passes through
unchanged. -/
def formatNumericValue (value : PyVal) (isCurrency : Bool) : PyVal :=
  let cur : String → String := fun s => if isCurrency then "$" ++ s else s
  match value with
  | .none => .pstr ""
  | .pbool b => .pstr (cur (formatFloat2 ⟨if b then 1 else 0, 1⟩))
  | .pint n => .pstr (cur (formatFloat2 ⟨n, 1⟩))
  | .pfloat q => .pstr (cur (formatFloat2 q))
  | v => v

/-! ### The workbook model (`excelManager`)

openpyxl's two parallel views (`data_only` values and formulas) are merged
into one sheet record carrying the computed cell values and the
number-format strings of the formula view. -/

/-- One worksheet: computed cell values and number formats are total
functions of (1-based) row and column; `maxRow`/`maxCol` bound the scans. -/
structure SheetData where
  cells : Int → Int → PyVal
  numberFormat : Int → Int → String
  maxRow : Int
  maxCol : Int

/-- A workbook: ordered association list of sheet names to sheets (the first
entry is the active sheet). -/
structure Workbook where
  sheets : List (String × SheetData)

/-- `excelManager`: it may or may not have a workbook loaded. -/
structure ExcelMgr where
  workbook : Option Workbook

/-- `self.workbook.sheetnames`. -/
def Workbook.sheetNames (wb : Workbook) : List String := wb.sheets.map Prod.fst

/-- `self.workbook[name]`. -/
def Workbook.findSheet (wb : Workbook) (name : String) : Option SheetData :=
  assocLookup wb.sheets name

/-- `excelManager.get_sheet_names` (raises when no workbook is loaded). -/
def getSheetNames (em : ExcelMgr) : Except PyErr (List String) :=
  match em.workbook with
  | Option.none => .error (.valueError "No workbook loaded")
  | some wb => .ok wb.sheetNames

/-- The emptiness test used by the scans: `value is None or value == ''`. -/
def isEmptyCell : PyVal → Bool
  | .none => true
  | .pstr s => s = ""
  | _ => false

/-- `formula_cell.number_format and '$' in formula_cell.number_format`. -/
def isCurrencyAt (sh : SheetData) (r c : Int) : Bool :=
  let fmt := sh.numberFormat r c
  if fmt.data.isEmpty then false else strContainsChar fmt '$'

/-- Column letters to 1-based index (`A ↦ 1`, `Z ↦ 26`, `AA ↦ 27`). -/
def colIndexFromLetters (ls : List Char) : Int :=
  (ls.foldl (fun a c => a * 26 + (c.toNat - 'A'.toNat + 1)) 0 : Nat)

/-- openpyxl `coordinate_from_string` + `column_index_from_string`:
an optional `$`, one to three column letters (upper case `A`-`Z`), an
optional `$` and a positive row number.  Returns `(row, column)`. -/
def parseCellRef (ref : String) : Except PyErr (Int × Int) :=
  let cs := ref.data
  let cs1 := match cs with | '$' :: t => t | t => t
  let letters := cs1.takeWhile Char.isAlpha
  let rest1 := cs1.dropWhile Char.isAlpha
  let rest2 := match rest1 with | '$' :: t => t | t => t
  if letters.isEmpty || decide (3 < letters.length) || rest2.isEmpty ||
      !rest2.all Char.isDigit || !letters.all (fun c => 'A' ≤ c && c ≤ 'Z') ||
      decide (digitsToNat rest2 = 0) then
    .error (.valueError ("Invalid cell reference: " ++ ref))
  else
    .ok ((digitsToNat rest2 : Int), colIndexFromLetters letters)

/-- `excelManager._parse_cell_reference`: an `A1`-style literal, optionally
prefixed by `Sheet!` (quotes stripped), yielding sheet, row and column. -/
def parseCellReferenceM (cellReference : String) (currentSheet : String) :
    Except PyErr (String × Int × Int) :=
  let p :=
    if strContainsChar cellReference '!' then
      let parts := pySplit cellReference "!"
      (pyStripChar (parts.headD "") '\'', parts.getD 1 "")
    else (currentSheet, cellReference)
  match parseCellRef p.2 with
  | .ok (r, c) => .ok (p.1, r, c)
  | .error e => .error e

/-- The argument-resolution prologue shared verbatim by `read_cell`,
`read_total`, `read_items` and `read_title_total`: either a cell-reference
string (possibly carrying a `Sheet!` override) or explicit row/column
numbers. -/
def resolveStartRef (sheetName : String) (rowOrCell : PyVal) (column : Option Int) :
    Except PyErr (String × Int × Int) :=
  match column with
  | Option.none =>
    match rowOrCell with
    | .pstr ref => parseCellReferenceM ref sheetName
    | _ => .error (.valueError "Cell reference must be a string")
  | some c =>
    match rowOrCell with
    | .pint r => .ok (sheetName, r, c)
    | _ => .error (.typeError "row must be an integer")

/-- `excelManager.read_cell`: the computed value of one cell, formatted, the
currency flag coming from the formula view's number format. -/
def readCell (em : ExcelMgr) (sheetName : String) (rowOrCell : PyVal) (column : Option Int) :
    Except PyErr PyVal :=
  match em.workbook with
  | Option.none => .error (.valueError "No workbook loaded")
  | some wb => do
    let (sn, row, col) ← resolveStartRef sheetName rowOrCell column
    match wb.findSheet sn with
    | Option.none => .error (.valueError ("Sheet does not exist: " ++ sn))
    | some sh => .ok (formatNumericValue (sh.cells row col) (isCurrencyAt sh row col))

/-- The `while current_row <= max_rows` loop of `read_total`: fuel counts
the remaining rows, `last` is the last non-empty value seen with its row. -/
def readTotalLoop (sh : SheetData) (col : Int) : Nat → Int → Option (PyVal × Int) → PyVal
  | 0, _, last =>
    match last with
    | some (lv, lr) => formatNumericValue lv (isCurrencyAt sh lr col)
    | Option.none => PyVal.none
  | fuel + 1, row, last =>
    let value := sh.cells row col
    if isEmptyCell value then
      match last with
      | some (lv, lr) => formatNumericValue lv (isCurrencyAt sh lr col)
      | Option.none => readTotalLoop sh col fuel (row + 1) Option.none
    else readTotalLoop sh col fuel (row + 1) (some (value, row))

/-- `excelManager.read_total`: scan downward, return the last non-empty
value before the first empty cell (or the end of the sheet); `None` when the
scan saw only empty cells. -/
def readTotal (em : ExcelMgr) (sheetName : String) (rowOrCell : PyVal) (column : Option Int) :
    Except PyErr PyVal :=
  match em.workbook with
  | Option.none => .error (.valueError "No workbook loaded")
  | some wb => do
    let (sn, startRow, startCol) ← resolveStartRef sheetName rowOrCell column
    match wb.findSheet sn with
    | Option.none => .error (.valueError ("Sheet does not exist: " ++ sn))
    | some sh =>
      .ok (readTotalLoop sh startCol ((sh.maxRow + 1 - startRow).toNat) startRow Option.none)

/-- The collection loop of `read_items`: formatted values downward until the
first empty cell (exclusive). -/
def readItemsLoop (sh : SheetData) (col : Int) : Nat → Int → List PyVal
  | 0, _ => []
  | fuel + 1, row =>
    let value := sh.cells row col
    if isEmptyCell value then []
    else formatNumericValue value (isCurrencyAt sh row col) :: readItemsLoop sh col fuel (row + 1)

/-- `excelManager.read_items`: the collected column values with the last
`min(|offset|, length)` entries dropped (Python slices `items[:-offset]`). -/
def readItems (em : ExcelMgr) (sheetName : String) (rowOrCell : PyVal) (column : Option Int)
    (offset : Int) : Except PyErr (List PyVal) :=
  match em.workbook with
  | Option.none => .error (.valueError "No workbook loaded")
  | some wb => do
    let (sn, startRow, startCol) ← resolveStartRef sheetName rowOrCell column
    match wb.findSheet sn with
    | Option.none => .error (.valueError ("Sheet does not exist: " ++ sn))
    | some sh =>
      let items := readItemsLoop sh startCol ((sh.maxRow + 1 - startRow).toNat) startRow
      if offset ≠ 0 ∧ items ≠ [] then
        let off := min offset.natAbs items.length
        .ok (if 0 < off then items.take (items.length - off) else items)
      else .ok items

/-- One row of `read_range`'s nested loop (columns `startCol..endCol`). -/
def readRangeRowLoop (sh : SheetData) (row : Int) : Nat → Int → List PyVal
  | 0, _ => []
  | fuel + 1, col =>
    formatNumericValue (sh.cells row col) (isCurrencyAt sh row col) ::
      readRangeRowLoop sh row fuel (col + 1)

/-- The row loop of `read_range` (rows `startRow..endRow`). -/
def readRangeLoop (sh : SheetData) (startCol endCol : Int) : Nat → Int → List (List PyVal)
  | 0, _ => []
  | fuel + 1, row =>
    readRangeRowLoop sh row ((endCol + 1 - startCol).toNat) startCol ::
      readRangeLoop sh startCol endCol fuel (row + 1)

/-- `excelManager.read_range` with its three calling conventions: a
`"A1:C3"` range literal, two cell-reference strings, or four explicit
coordinates.  Unpacking a range literal with more than one `:` raises, as in
Python. -/
def readRange (em : ExcelMgr) (sheetName : String) (startCellOrRow : PyVal)
    (startColumn : Option PyVal) (endCellOrRow : Option PyVal) (endColumn : Option PyVal) :
    Except PyErr (List (List PyVal)) :=
  match em.workbook with
  | Option.none => .error (.valueError "No workbook loaded")
  | some wb => do
    let coords : Except PyErr (String × Int × Int × Int × Int) :=
      match startCellOrRow, startColumn, endCellOrRow, endColumn with
      | .pstr s, Option.none, _, _ =>
        if strContainsChar s ':' then
          match pySplit s ":" with
          | [startRef, endRef] => do
            let (sref, sr, sc) ← parseCellReferenceM startRef sheetName
            let (_, er, ec) ← parseCellReferenceM endRef sheetName
            Except.ok (sref, sr, sc, er, ec)
          | _ => .error (.valueError "too many values to unpack (expected 2)")
        else .error (.valueError "Invalid arguments for read_range")
      | .pstr s1, some (.pstr s2), Option.none, _ => do
        let (sref, sr, sc) ← parseCellReferenceM s1 sheetName
        let (_, er, ec) ← parseCellReferenceM s2 sheetName
        Except.ok (sref, sr, sc, er, ec)
      | a, some b, some c, some d =>
        match a, b, c, d with
        | .pint sr, .pint sc, .pint er, .pint ec => Except.ok (sheetName, sr, sc, er, ec)
        | _, _, _, _ => .error (.typeError "range arguments must be integers")
      | _, _, _, _ => .error (.valueError "Invalid arguments for read_range")
    let (sn, sr, sc, er, ec) ← coords
    match wb.findSheet sn with
    | Option.none => .error (.valueError ("Sheet does not exist: " ++ sn))
    | some sh => .ok (readRangeLoop sh sc ec ((er + 1 - sr).toNat) sr)

/-- The rightward title scan of `read_title_total`/`read_columns`: first
column whose cell holds a non-empty string equal (case-insensitively) to the
title. -/
def findTitleLoop (sh : SheetData) (row : Int) (title : String) : Nat → Int → Option Int
  | 0, _ => Option.none
  | fuel + 1, col =>
    match sh.cells row col with
    | .pstr s =>
      if s ≠ "" ∧ pyLower s = pyLower title then some col
      else findTitleLoop sh row title fuel (col + 1)
    | _ => findTitleLoop sh row title fuel (col + 1)

/-- Worker for openpyxl `get_column_letter` (columns up to three letters). -/
def colLetterAux : Nat → Nat → List Char
  | 0, _ => []
  | fuel + 1, n =>
    if n = 0 then []
    else colLetterAux fuel ((n - 1) / 26) ++ [Char.ofNat ('A'.toNat + (n - 1) % 26)]

/-- openpyxl `get_column_letter`. -/
def getColumnLetter (n : Int) : String := String.mk (colLetterAux 8 n.toNat)

/-- `excelManager.read_title_total`: find the title in the start row
(scanning rightward from the start column), then `read_total` from one row
below the matched column; `None` when the title is missing. -/
def readTitleTotal (em : ExcelMgr) (sheetName : String) (rowOrCell : PyVal) (title : String)
    (column : Option Int) : Except PyErr PyVal :=
  match em.workbook with
  | Option.none => .error (.valueError "No workbook loaded")
  | some wb => do
    let (sn, startRow, startCol) ← resolveStartRef sheetName rowOrCell column
    match wb.findSheet sn with
    | Option.none => .error (.valueError ("Sheet does not exist: " ++ sn))
    | some sh =>
      match findTitleLoop sh startRow title ((sh.maxCol + 1 - startCol).toNat) startCol with
      | Option.none => .ok PyVal.none
      | some titleCol =>
        readTotal em sn (.pstr (getColumnLetter titleCol ++ Int.repr (startRow + 1))) Option.none

/-- The per-column loop of `read_columns`: headers and item lists, skipping
titles that are not found. -/
def readColumnsLoop (em : ExcelMgr) (sh : SheetData) (sheetName : String) (useTitles : Bool)
    (titleRow : Int) : List String → Except PyErr (List PyVal × List (List PyVal))
  | [] => .ok ([], [])
  | cellOrTitle :: rest =>
    if useTitles then
      match findTitleLoop sh titleRow cellOrTitle sh.maxCol.toNat 1 with
      | Option.none => readColumnsLoop em sh sheetName useTitles titleRow rest
      | some titleCol => do
        let items ← readItems em sheetName
          (.pstr (getColumnLetter titleCol ++ Int.repr (titleRow + 1))) Option.none 0
        let (hs, cols) ← readColumnsLoop em sh sheetName useTitles titleRow rest
        .ok (.pstr cellOrTitle :: hs, items :: cols)
    else do
      let (_, row, col) ← parseCellReferenceM cellOrTitle sheetName
      let headerValue := sh.cells row col
      let items ← readItems em sheetName
        (.pstr (getColumnLetter col ++ Int.repr (row + 1))) Option.none 0
      let (hs, cols) ← readColumnsLoop em sh sheetName useTitles titleRow rest
      .ok (headerValue :: hs, items :: cols)

/-- `excelManager.read_columns`: split the selector string on commas, gather
each column's items, pad the columns to the longest length with `''` and
transpose, headers first.  (The list-argument calling convention is unused
by the resolver and not modelled.) -/
def readColumns (em : ExcelMgr) (sheetName : String) (inputCells : String) (useTitles : Bool)
    (startRow : Option Int) : Except PyErr (List (List PyVal)) :=
  match em.workbook with
  | Option.none => .error (.valueError "No workbook loaded")
  | some wb =>
    match wb.findSheet sheetName with
    | Option.none => .error (.valueError ("Sheet does not exist: " ++ sheetName))
    | some sh => do
      let cellsList := (pySplit inputCells ",").map pyStrip
      let titleRow := startRow.getD 1
      let (headers, columnsData) ← readColumnsLoop em sh sheetName useTitles titleRow cellsList
      let maxLength := columnsData.foldl (fun m col => max m col.length) 0
      let rows := (List.range maxLength).map
        (fun i => columnsData.map (fun col => col.getD i (.pstr "")))
      .ok (headers :: rows)

/-- The cells of one column of a sheet, with their rows, from `row` for
`n` rows: the list the downward scans of `read_total`/`read_items` walk.
Used to state the scan claims. -/
def buildCol (sh : SheetData) (col : Int) : Nat → Int → List (Int × PyVal)
  | 0, _ => []
  | n + 1, row => (row, sh.cells row col) :: buildCol sh col n (row + 1)

/-! ### The placeholder scanner (`re.finditer(r'{{(.*?)}}', text)`)

The non-greedy regex finds, from left to right, a `\x7b\x7b` opener followed
by the earliest `\x7d\x7d` closer with no newline in between (`.` does not
match newlines), and continues scanning after the closer. -/

/-- Scan for the earliest closing `\x7d\x7d`, returning the content before
it and the remaining characters after it; `Option.none` when no closer
exists on this line. -/
def scanContent : List Char → Option (List Char × List Char)
  | '\x7d' :: '\x7d' :: rest => some ([], rest)
  | '\n' :: _ => Option.none
  | c :: rest =>
    match scanContent rest with
    | some (content, rest') => some (c :: content, rest')
    | Option.none => Option.none
  | [] => Option.none

/-- The scanning loop: at an opener, try to close it (continuing after the
match); otherwise advance one character.  The fuel is initialised to the
text length plus one, which always suffices. -/
def scanKeywords : Nat → List Char → List (String × String)
  | 0, _ => []
  | _ + 1, [] => []
  | fuel + 1, '\x7b' :: '\x7b' :: rest =>
    (match scanContent rest with
     | some (content, rest') =>
       ("\x7b\x7b" ++ String.mk content ++ "\x7d\x7d", String.mk content) ::
         scanKeywords fuel rest'
     | Option.none => scanKeywords fuel ('\x7b' :: rest))
  | fuel + 1, _ :: t => scanKeywords fuel t

/-- All placeholder matches in a text, in order, as
(full match `\x7b\x7b...\x7d\x7d`, inner content) pairs. -/
def findPlaceholders (s : String) : List (String × String) :=
  scanKeywords (s.data.length + 1) s.data

/-- The classifying token: `content.split("!", 1)[0].strip().upper()`. -/
def keywordTypeOf (content : String) : String :=
  pyUpper (pyStrip ((pySplitOnce content "!").headD ""))

/-! ### Resolver state (`keywordParser` instance attributes plus its
external collaborators) -/

/-- The state a `keywordParser` works against: its Excel manager, whether a
Word document was attached via `set_word_document` (the document itself is
an external mutation target and is modelled only through the sentinel
protocol), the input form's state, and the external file system (text files
for TEMPLATE; JSON files, already decoded, for JSON).  `today` models
`date.today()` as an environment parameter. -/
structure PState where
  excelManager : Option ExcelMgr
  wordDocument : Bool
  formSubmitted : Bool
  inputValues : List (String × PyVal)
  textFiles : String → Option String
  jsonFiles : String → Option PyVal
  today : String

/-- `keywordParser._process_input_keyword` (the non-interactive fallback):
returns the default value carried by the INPUT placeholder itself. -/
def processInputKeyword (st : PState) (params : String) : PyVal :=
  let inputParts := pySplit params "!"
  let inputType := pyLower (inputParts.headD "")
  if inputType = "text" ∨ inputType = "area" then .pstr (inputParts.getD 2 "")
  else if inputType = "date" then .pstr st.today
  else if inputType = "select" then
    let optionsStr := inputParts.getD 2 ""
    let options := if optionsStr = "" then [] else (pySplit optionsStr ",").map pyStrip
    .pstr (options.headD "")
  else if inputType = "check" then .pbool (pyLower (inputParts.getD 2 "false") = "true")
  else if params = "" then .pstr "[Input value]" else .pstr params

/-- The `{lower-case name: name}` sheet map; built by a dict comprehension,
so a later duplicate (case-insensitively) overrides an earlier one. -/
def sheetMapGet (sheets : List String) (key : String) : Option String :=
  sheets.reverse.find? (fun s => pyLower s = key)

/-- `keywordParser._get_sheet_and_ref`: when the first `!`-segment names a
sheet (quotes stripped, case-insensitively), split it off; otherwise use the
default sheet with the whole parameter string as reference. -/
def getSheetAndRef (params : String) (defaultSheet : String) (sheets : List String) :
    String × String :=
  let parts := pySplit params "!"
  match (if decide (1 < parts.length) then
           sheetMapGet sheets (pyLower (pyStripChar (parts.headD "") '\''))
         else Option.none) with
  | some sheetName => (sheetName, joinSep "!" parts.tail)
  | Option.none => (defaultSheet, params)

/-- `str(cell) if cell is not None else ""` (table rendering). -/
def cellDisplay (c : PyVal) : String :=
  match c with
  | .none => ""
  | c => pyStr c

/-- `keywordParser._create_word_table`: inserts a table into the attached
Word document (an external mutation, not tracked beyond its protocol) and
returns the reserved sentinel `"[TABLE_INSERTED]"`; degenerate data falls
back to its string form or a bracketed diagnostic. -/
def createWordTable (data : List (List PyVal)) : PyVal :=
  if data.isEmpty then .pstr (pyStr (.plist (data.map .plist)))
  else if data.foldl (fun m row => max m row.length) 0 = 0 then .pstr "[Empty Table Data]"
  else .pstr "[TABLE_INSERTED]"

/-- One rendered row of the plain-text table: numeric-looking cells (after
stripping `,` and `$`) right-justified, others left-justified, joined with
`" | "`. -/
def renderTableRow (widths : List Nat) (row : List PyVal) : String :=
  joinSep " | " (row.enum.map (fun p =>
    let cellStr := cellDisplay p.2
    let w := widths.getD p.1 0
    match pyFloatParse (pyReplaceAll (pyReplaceAll cellStr "," "") "$" "") with
    | some _ => pyRjust cellStr w
    | Option.none => pyLjust cellStr w))

/-- `keywordParser._format_table`: with a Word document attached it defers
to `createWordTable`; otherwise it renders an aligned plain-text table with
per-column widths and a dashed rule after the header row. -/
def formatTextTable (wordDoc : Bool) (data : List (List PyVal)) : PyVal :=
  if wordDoc then createWordTable data
  else if data.isEmpty then .pstr (pyStr (.plist (data.map .plist)))
  else
    let numCols := data.foldl (fun m row => max m row.length) 0
    let widths := (List.range numCols).map (fun i =>
      data.foldl (fun w row =>
        match row.get? i with
        | some cell => max w (cellDisplay cell).data.length
        | Option.none => w) 0)
    let rendered := data.map (renderTableRow widths)
    let sepLine := joinSep "-+-" (widths.map (fun w => String.mk (List.replicate w '-')))
    match rendered with
    | [] => .pstr ""
    | r0 :: rest => .pstr (joinSep "\n" (if rest.isEmpty then [r0] else r0 :: sepLine :: rest))

/-- The presentation step of the RANGE/COLUMN branches:
`if self.word_document and data: _create_word_table(data) else:
_format_table(data)`. -/
def presentTableData (wordDoc : Bool) (data : List (List PyVal)) : PyVal :=
  if wordDoc && !data.isEmpty then createWordTable data else formatTextTable wordDoc data

/-- `available_sheets[0]` (Python raises `IndexError` on an empty list). -/
def pyListGet {α : Type} (l : List α) (i : Nat) : Except PyErr α :=
  match l.get? i with
  | some x => .ok x
  | Option.none => .error (.indexError "list index out of range")

/-- The message `str(e)` of an exception. -/
def pyErrMsg : PyErr → String
  | .valueError m => m
  | .typeError m => m
  | .indexError m => m
  | .keyError m => "'" ++ m ++ "'"
  | .nameError n => "name '" ++ n ++ "' is not defined"
  | .attributeError m => m
  | .recursionError => "maximum recursion depth exceeded"
  | .stopExecution => "StopException"

/-- The shared shape of the TEMPLATE/JSON exception handlers: they first
evaluate `self.excel_manager.logger` (an `AttributeError` when no Excel
manager is attached) and then return a bracketed diagnostic. -/
def loggedDiagnostic (st : PState) (head : String) (e : PyErr) : Except PyErr PyVal :=
  match st.excelManager with
  | Option.none => .error (.attributeError "'NoneType' object has no attribute 'logger'")
  | some _ => .ok (.pstr (head ++ pyErrMsg e ++ "]"))

/-! ### JSON primitives (`keywordParser._process_json_keyword`) -/

/-- Python `len`. -/
def pyLen : PyVal → Except PyErr Int
  | .plist l => .ok l.length
  | .pdict l => .ok l.length
  | .pstr s => .ok s.data.length
  | _ => .error (.typeError "object has no len()")

/-- Python `key in current` for a string key. -/
def pyContains (v : PyVal) (key : String) : Except PyErr Bool :=
  match v with
  | .pdict entries => .ok (entries.any (fun e => e.1 = key))
  | .plist l => .ok (l.contains (.pstr key))
  | .pstr s => .ok (strHasSub s key)
  | _ => .error (.typeError "argument of type is not iterable")

/-- Python `current[key]` for a string key. -/
def pyGetItemStr (v : PyVal) (key : String) : Except PyErr PyVal :=
  match v with
  | .pdict entries =>
    match assocLookup entries key with
    | some x => .ok x
    | Option.none => .error (.keyError key)
  | _ => .error (.typeError "indices must be integers")

/-- Python `current[i]` for an integer index (negative indices count from
the end; a dict subscripted by an int raises `KeyError`). -/
def pySubscript (v : PyVal) (i : Int) : Except PyErr PyVal :=
  match v with
  | .plist l =>
    let n : Int := l.length
    let j := if i < 0 then n + i else i
    if 0 ≤ j ∧ j < n then .ok (l.getD j.toNat PyVal.none)
    else .error (.indexError "list index out of range")
  | .pstr s =>
    let n : Int := s.data.length
    let j := if i < 0 then n + i else i
    if 0 ≤ j ∧ j < n then .ok (.pstr (String.mk [s.data.getD j.toNat ' ']))
    else .error (.indexError "string index out of range")
  | .pdict _ => .error (.keyError (Int.repr i))
  | _ => .error (.typeError "object is not subscriptable")

/-- The index step of the JSON path walk (`keyword_parser.py` lines
747-753): `int(index_str)`, the `index >= len(current)` bounds check, then
`current[index]`, with `ValueError`/`IndexError`/`TypeError` caught and
turned into diagnostics (`Sum.inl`) and every other exception propagating.
`Sum.inr` carries the successfully selected element. -/
def jsonIndexStep (current : PyVal) (indexStr : String) : Except PyErr (PyVal ⊕ PyVal) :=
  match pyIntParse indexStr with
  | Option.none => .ok (.inl (.pstr ("[Invalid JSON array index: " ++ indexStr ++ "]")))
  | some index =>
    match pyLen current with
    | .error (.typeError _) =>
      .ok (.inl (.pstr ("[Invalid JSON array index: " ++ indexStr ++ "]")))
    | .error e => .error e
    | .ok n =>
      if n ≤ index then
        .ok (.inl (.pstr ("[JSON index out of bounds: " ++ Int.repr index ++ "]")))
      else
        match pySubscript current index with
        | .ok v => .ok (.inr v)
        | .error (.indexError _) =>
          .ok (.inl (.pstr ("[Invalid JSON array index: " ++ indexStr ++ "]")))
        | .error (.typeError _) =>
          .ok (.inl (.pstr ("[Invalid JSON array index: " ++ indexStr ++ "]")))
        | .error e => .error e

/-- The left-to-right accumulation of
`sum(float(str(x).replace(',','').replace('$','')) for x in current if x is
not None)`; `Option.none` when some element does not parse as a number. -/
def sumFloatsAcc : PyFloat → List PyVal → Option PyFloat
  | acc, [] => some acc
  | acc, x :: rest =>
    if x = PyVal.none then sumFloatsAcc acc rest
    else
      match pyFloatParse (pyReplaceAll (pyReplaceAll (pyStr x) "," "") "$" "") with
      | some q => sumFloatsAcc (acc.add q) rest
      | Option.none => Option.none

/-- The optional trailing transform of a JSON placeholder: `SUM`,
`JOIN(delim)`, `BOOL(yes/no)`; anything else (including `SUM` applied to a
non-list) falls through to the untransformed value. -/
def applyJsonTransform (transformType : Option String) (current : PyVal) : PyVal :=
  match transformType with
  | Option.none => current
  | some tt =>
    if tt = "" then current
    else if tt = "SUM" then
      match current with
      | .plist l =>
        match sumFloatsAcc ⟨0, 1⟩ l with
        | some q => .pfloat q
        | Option.none => .pstr "[Cannot SUM non-numeric values in list]"
      | _ => current
    else if strStarts tt "JOIN(" && strEnds tt ")" then
      let delimiter := String.mk ((tt.data.drop 5).dropLast)
      match current with
      | .plist l => .pstr (joinSep delimiter ((l.filter (fun x => x ≠ PyVal.none)).map pyStr))
      | _ => .pstr (pyStr current)
    else if strStarts tt "BOOL(" && strEnds tt ")" then
      let yesNo := pySplit (String.mk ((tt.data.drop 5).dropLast)) "/"
      let yesText := yesNo.getD 0 "Yes"
      let noText := yesNo.getD 1 "No"
      let boolValue :=
        match current with
        | .pbool b => b
        | .pstr s =>
          (pyLower s = "true") || (pyLower s = "yes") || (pyLower s = "1") || (pyLower s = "on")
        | .pint n => decide (n ≠ 0)
        | .pfloat q => decide (q.num ≠ 0)
        | _ => false
      .pstr (if boolValue then yesText else noText)
    else current

/-- Python `splitlines()` restricted to `\n` separators (the only line
terminator appearing in the repository's data): like `split("\n")` but
without a trailing empty field, and empty for the empty string. -/
def pySplitLines (s : String) : List String :=
  if s.data.isEmpty then []
  else
    let parts := pySplit s "\n"
    if s.data.getLastD ' ' = '\n' then parts.dropLast else parts

/-! ### Excel keyword dispatch (`keywordParser._call_excel_method`) -/

/-- The body of the `try:` block of `_call_excel_method`, dispatching on the
`CELL`/`LAST`/`RANGE`/`COLUMN` sub-type. -/
def callExcelBody (st : PState) (em : ExcelMgr) (availableSheets : List String)
    (xlType : String) (xlParams : String) : Except PyErr PyVal :=
  if xlType = "CELL" then do
    let defaultSheet ← pyListGet availableSheets 0
    let p := getSheetAndRef xlParams defaultSheet availableSheets
    readCell em p.1 (.pstr p.2) Option.none
  else if xlType = "LAST" then
    let lastParts := pySplit xlParams "!"
    if decide (3 ≤ lastParts.length) then
      let sheetNameRef := lastParts.getD 0 ""
      let cellRef := lastParts.getD 1 ""
      let title := lastParts.getD 2 ""
      let actualSheetName := (sheetMapGet availableSheets (pyLower sheetNameRef)).getD sheetNameRef
      if !(availableSheets.contains actualSheetName) then
        .ok (.pstr ("[Sheet not found: " ++ actualSheetName ++ "]"))
      else readTitleTotal em actualSheetName (.pstr cellRef) title Option.none
    else do
      let defaultSheet ← pyListGet availableSheets 0
      let p := getSheetAndRef xlParams defaultSheet availableSheets
      readTotal em p.1 (.pstr p.2) Option.none
  else if xlType = "RANGE" then do
    let defaultSheet ← pyListGet availableSheets 0
    let p := getSheetAndRef xlParams defaultSheet availableSheets
    -- a reference without ':' is passed through to read_range unchanged
    let data ← readRange em p.1 (.pstr p.2) Option.none Option.none Option.none
    .ok (presentTableData st.wordDocument data)
  else if xlType = "COLUMN" then
    let colParts := pySplit xlParams "!"
    if decide (colParts.length < 2) then .ok (.pstr "[Invalid COLUMN format]")
    else
      let sheetRef := colParts.getD 0 ""
      let columnsInput := pyStripChar (colParts.getD 1 "") '"'
      let actualSheetName := (sheetMapGet availableSheets (pyLower sheetRef)).getD sheetRef
      if !(availableSheets.contains actualSheetName) then
        .ok (.pstr ("[Sheet not found: " ++ actualSheetName ++ "]"))
      else if decide (2 < colParts.length) then
        match pyIntParse (colParts.getD 2 "") with
        | Option.none => .ok (.pstr "[Invalid start row for COLUMN]")
        | some startRow => do
          let data ← readColumns em actualSheetName columnsInput true (some startRow)
          .ok (presentTableData st.wordDocument data)
      else
        let useTitles := !(pyReplaceAll columnsInput "," "").data.any Char.isDigit
        let startRow : Option Int := if useTitles then some 1 else Option.none
        do
          let data ← readColumns em actualSheetName columnsInput useTitles startRow
          .ok (presentTableData st.wordDocument data)
  else .ok (.pstr ("[Unknown XL type: " ++ xlType ++ "]"))

/-- `keywordParser._call_excel_method`.  `get_sheet_names` runs before the
`try:` block, so its exceptions propagate untouched.  The `except` handler
logs `f"Error processing XL keyword '{content}': ..."` — but no variable
named `content` is in scope in this method, so evaluating the f-string
raises `NameError`, which escapes in place of the intended
`"[Error processing XL: ...]"` diagnostic. -/
def callExcelMethod (st : PState) (em : ExcelMgr) (xlType : String) (xlParams : String) :
    Except PyErr PyVal := do
  let availableSheets ← getSheetNames em
  match callExcelBody st em availableSheets xlType xlParams with
  | .ok v => .ok v
  | .error _ => .error (.nameError "content")

/-- `keywordParser._process_excel_keyword`: splits on `!`; a parameter
string without `!` goes through the legacy-format fallbacks. -/
def processExcelKeyword (st : PState) (content : String) : Except PyErr PyVal :=
  if content = "" then .ok (.pstr "[Invalid Excel reference]")
  else
    match st.excelManager with
    | Option.none => .ok (.pstr "[Excel manager not initialized]")
    | some em =>
      let parts := pySplit content "!"
      if decide (parts.length < 2) then
        if strContainsChar content ':' then
          if strContainsChar ((pySplit content ":").headD "") '!' then
            match pySplitOnce content "!" with
            | [sheetRef, cellRange] => callExcelMethod st em "RANGE" (sheetRef ++ "!" ++ cellRange)
            | _ => .error (.valueError "not enough values to unpack (expected 2)")
          else callExcelMethod st em "RANGE" content
        else if strStarts content ":" then
          callExcelMethod st em "LAST" (String.mk content.data.tail)
        else if strContainsChar content '!' then
          callExcelMethod st em "CELL" content
        else
          match callExcelMethod st em "CELL" content with
          | .error (.valueError _) => callExcelMethod st em "RANGE" content
          | r => r
      else
        callExcelMethod st em (pyUpper (pyStrip (parts.headD ""))) (joinSep "!" parts.tail)

/-! ### The resolver (`keywordParser.parse` and the keyword processors)

These functions are mutually recursive (TEMPLATE `VARS(...)` values, JSON
file names and JSON path segments re-enter `parse`); the explicit fuel
models Python's bounded call stack, every call consuming one unit. -/

mutual

/-- `keywordParser.parse`: find all placeholders; with unsubmitted INPUT
placeholders present the Streamlit form stops the pass (`st.stop()`);
otherwise every placeholder is replaced in order, INPUT placeholders from
the collected `input_values`, the rest through `_process_keyword`. -/
def kwParse : Nat → PState → String → Except PyErr String
  | 0, _, _ => .error .recursionError
  | fuel + 1, st, inputString =>
    if inputString = "" then .ok inputString
    else
      let allMatches := findPlaceholders inputString
      let inputKeywords := allMatches.filter (fun m => keywordTypeOf m.2 = "INPUT")
      if !inputKeywords.isEmpty && !st.formSubmitted then .error .stopExecution
      else kwParseLoop fuel st allMatches inputString

/-- The substitution loop of `parse`: each match's replacement is computed
and spliced in with `result.replace(keyword, str(replacement), 1)`
(`None` becomes the empty string). -/
def kwParseLoop : Nat → PState → List (String × String) → String → Except PyErr String
  | _, _, [], result => .ok result
  | 0, _, _ :: _, _ => .error .recursionError
  | fuel + 1, st, (keyword, content) :: rest, result => do
    let replacement ←
      match assocLookup st.inputValues keyword with
      | some v => Except.ok v
      | Option.none => processKeyword fuel st content
    let replStr :=
      match replacement with
      | PyVal.none => ""
      | v => pyStr v
    kwParseLoop fuel st rest (pyReplaceFirst result keyword replStr)

/-- `keywordParser._process_keyword`: dispatch on the upper-cased token
before the first `!`; unknown tokens fall back to an implicit named-range
`RANGE` lookup. -/
def processKeyword : Nat → PState → String → Except PyErr PyVal
  | 0, _, _ => .error .recursionError
  | fuel + 1, st, content =>
    let parts := pySplitOnce content "!"
    let keywordType := pyUpper (pyStrip (parts.headD ""))
    if keywordType = "XL" then processExcelKeyword st (parts.getD 1 "")
    else if keywordType = "INPUT" then .ok (processInputKeyword st (parts.getD 1 ""))
    else if keywordType = "TEMPLATE" then processTemplateKeyword fuel st (parts.getD 1 "")
    else if keywordType = "JSON" then processJsonKeyword fuel st (parts.getD 1 "")
    else processExcelKeyword st ("RANGE!" ++ content)

/-- `keywordParser._process_template_keyword`: body wrapped in
`try/except Exception` whose handler logs through
`self.excel_manager.logger` and returns an `[Error in TEMPLATE: ...]`
diagnostic. -/
def processTemplateKeyword : Nat → PState → String → Except PyErr PyVal
  | 0, _, _ => .error .recursionError
  | fuel + 1, st, content =>
    if content = "" then .ok (.pstr "[Invalid TEMPLATE reference]")
    else
      match processTemplateBody fuel st content with
      | .ok v => .ok v
      | .error e => loggedDiagnostic st "[Error in TEMPLATE: " e

/-- The `try:` body of `_process_template_keyword`: library references,
missing files, and the `section=`/`line=`/`paragraph=`/`VARS(...)`
directives (`VARS` values re-enter `parse`). -/
def processTemplateBody : Nat → PState → String → Except PyErr PyVal
  | 0, _, _ => .error .recursionError
  | fuel + 1, st, content =>
    let parts := pySplit content "!"
    let filename := pyStrip (parts.headD "")
    if pyUpper filename = "LIBRARY" then
      if decide (1 < parts.length) then
        let templateName := pyStrip (parts.getD 1 "")
        let templateVersion := if decide (2 < parts.length) then pyStrip (parts.getD 2 "") else "DEFAULT"
        .ok (.pstr ("[Template Library: " ++ templateName ++ " (Version: " ++ templateVersion ++ ")]"))
      else .ok (.pstr "[Invalid library template reference]")
    else
      match st.textFiles filename with
      | Option.none => .ok (.pstr ("[Template file not found: " ++ filename ++ "]"))
      | some fileContent =>
        if decide (1 < parts.length) then
          let paramPart := joinSep "!" parts.tail
          if strStarts paramPart "section=" then
            let sectionName :=
              pyStrip ((pySplit ((pySplit paramPart "section=").getD 1 "") ",").headD "")
            .ok (.pstr ("[Section " ++ sectionName ++ " from " ++ filename ++ "]"))
          else if strStarts paramPart "line=" then
            match pyIntParse
                (pyStrip ((pySplit ((pySplit paramPart "line=").getD 1 "") ",").headD "")) with
            | Option.none => .ok (.pstr ("[Invalid line number in " ++ paramPart ++ "]"))
            | some lineNumber =>
              let lines := pySplitLines fileContent
              if 0 ≤ lineNumber - 1 ∧ lineNumber - 1 < (lines.length : Int) then
                .ok (.pstr (lines.getD (lineNumber - 1).toNat ""))
              else
                .ok (.pstr ("[Line " ++ Int.repr lineNumber ++ " not found in " ++ filename ++ "]"))
          else if strStarts paramPart "paragraph=" then
            match pyIntParse
                (pyStrip ((pySplit ((pySplit paramPart "paragraph=").getD 1 "") ",").headD "")) with
            | Option.none => .ok (.pstr ("[Invalid paragraph number in " ++ paramPart ++ "]"))
            | some paraNumber =>
              let paragraphs := pySplit fileContent "\n\n"
              if 0 ≤ paraNumber - 1 ∧ paraNumber - 1 < (paragraphs.length : Int) then
                .ok (.pstr (paragraphs.getD (paraNumber - 1).toNat ""))
              else
                .ok (.pstr ("[Paragraph " ++ Int.repr paraNumber ++ " not found in " ++ filename ++ "]"))
          else if strStarts paramPart "VARS(" then do
            let varsText := (pySplit ((pySplit paramPart "VARS(").getD 1 "") ")").headD ""
            let varPairs := pySplit varsText ","
            let varDict ← collectVars fuel st varPairs []
            .ok (.pstr (varDict.foldl
              (fun acc kv => pyReplaceAll acc ("\x7b" ++ kv.1 ++ "\x7d") kv.2) fileContent))
          else .ok (.pstr fileContent)
        else .ok (.pstr fileContent)

/-- The `VARS(...)` pair loop: `variables[key.strip()] =
self.parse(value.strip())` for each `key=value` pair (a dict, so a repeated
key keeps its final value). -/
def collectVars : Nat → PState → List String → List (String × String) →
    Except PyErr (List (String × String))
  | 0, _, _, _ => .error .recursionError
  | _ + 1, _, [], acc => .ok acc
  | fuel + 1, st, pair :: rest, acc =>
    if strContainsChar pair '=' then
      match pySplitOnce pair "=" with
      | [key, value] => do
        let parsed ← kwParse fuel st (pyStrip value)
        collectVars fuel st rest (dictInsert acc (pyStrip key) parsed)
      | _ => .error (.valueError "not enough values to unpack (expected 2)")
    else collectVars fuel st rest acc

/-- `keywordParser._process_json_keyword`: body wrapped in
`try/except` whose handler logs through `self.excel_manager.logger` and
returns an `[Error in JSON: ...]` diagnostic.  (The `json.JSONDecodeError`
arm is unreachable here because the JSON collaborator hands over already
decoded documents.) -/
def processJsonKeyword : Nat → PState → String → Except PyErr PyVal
  | 0, _, _ => .error .recursionError
  | fuel + 1, st, content =>
    if content = "" then .ok (.pstr "[Invalid JSON reference]")
    else
      match processJsonBody fuel st content with
      | .ok v => .ok v
      | .error e => loggedDiagnostic st "[Error in JSON: " e

/-- The `try:` body of `_process_json_keyword`: filename (recursively
parsed when itself a placeholder), existence check, then the path walk and
optional transform. -/
def processJsonBody : Nat → PState → String → Except PyErr PyVal
  | 0, _, _ => .error .recursionError
  | fuel + 1, st, content => do
    let parts := pySplit content "!"
    if decide (parts.length < 2) then .ok (.pstr "[Invalid JSON format: Filename and path required]")
    else do
      let filename0 := pyStrip (parts.headD "")
      let jsonPath := pyStrip (parts.getD 1 "")
      let transformType :=
        if decide (2 < parts.length) then some (pyUpper (pyStrip (parts.getD 2 ""))) else Option.none
      let filename ←
        if strStarts filename0 "\x7b\x7b" && strEnds filename0 "\x7d\x7d" then
          kwParse fuel st filename0
        else Except.ok filename0
      match st.jsonFiles filename with
      | Option.none => .ok (.pstr ("[JSON file not found: " ++ filename ++ "]"))
      | some jsonData => evalJsonPath fuel st jsonData jsonPath transformType

/-- The restricted JSONPath evaluation of `_process_json_keyword`: the path
must start with `$.`; the remaining dot-separated segments are walked left
to right from the whole document, and the transform applies only to a walk
that ran to completion (an early diagnostic is returned as-is). -/
def evalJsonPath : Nat → PState → PyVal → String → Option String → Except PyErr PyVal
  | 0, _, _, _, _ => .error .recursionError
  | fuel + 1, st, jsonData, jsonPath, transformType =>
    if strStarts jsonPath "$." then do
      let pathParts := pySplit (String.mk (jsonPath.data.drop 2)) "."
      match ← evalJsonSegments fuel st pathParts jsonData with
      | .inl diagnostic => .ok diagnostic
      | .inr current => .ok (applyJsonTransform transformType current)
    else .ok (.pstr ("[Invalid JSONPath (must start with $.): " ++ jsonPath ++ "]"))

/-- The segment loop of the JSON path walk.  A `key[idx]` segment descends
into `key` (which must exist and be a list) and indexes it (`[*]` keeps the
list); a plain segment (itself recursively parsed when a placeholder) is a
dict key.  `Sum.inl` carries an early-returned diagnostic, `Sum.inr` the
current value. -/
def evalJsonSegments : Nat → PState → List String → PyVal → Except PyErr (PyVal ⊕ PyVal)
  | 0, _, _, _ => .error .recursionError
  | _ + 1, _, [], current => .ok (.inr current)
  | fuel + 1, st, part :: rest, current =>
    if strContainsChar part '[' && strEnds part "]" then do
      let key := (pySplit part "[").headD ""
      let indexStr := String.mk (((pySplit part "[").getD 1 "").data.dropLast)
      let stepCur ←
        if key = "" then Except.ok (Sum.inr current)
        else do
          let mem ← pyContains current key
          if !mem then Except.ok (Sum.inl (PyVal.pstr ("[JSON key not found: " ++ key ++ "]")))
          else do
            let cur2 ← pyGetItemStr current key
            match cur2 with
            | .plist _ => Except.ok (Sum.inr cur2)
            | _ => Except.ok (Sum.inl (.pstr ("[JSON path error: " ++ key ++ " is not an array]")))
      match stepCur with
      | .inl d => .ok (.inl d)
      | .inr cur2 =>
        if indexStr = "*" then evalJsonSegments fuel st rest cur2
        else do
          match jsonIndexStep cur2 indexStr with
          | .ok (.inl d) => .ok (.inl d)
          | .ok (.inr cur3) => evalJsonSegments fuel st rest cur3
          | .error e => .error e
    else do
      let part2 ←
        if strStarts part "\x7b\x7b" && strEnds part "\x7d\x7d" then kwParse fuel st part
        else Except.ok part
      match current with
      | .pdict entries =>
        match assocLookup entries part2 with
        | some v => evalJsonSegments fuel st rest v
        | Option.none => .ok (.inl (.pstr ("[JSON key not found: " ++ part2 ++ "]")))
      | _ => .ok (.inl (.pstr ("[JSON key not found: " ++ part2 ++ "]")))

end

/-! ### The completed resolution pass -/

/-- The INPUT collection of `parse` (lines 55-79 of `keyword_parser.py`):
filter the INPUT matches and fill `temp_input_values[keyword] = value`,
where each rendered field's value comes from the external input provider
(keyed by occurrence index and raw content).  A dict, so matches with the
same full keyword collapse to one entry holding the last value. -/
def collectInputValues (provider : Nat → String → PyVal) (text : String) :
    List (String × PyVal) :=
  let allMatches := findPlaceholders text
  let inputKeywords := allMatches.filter (fun m => keywordTypeOf m.2 = "INPUT")
  inputKeywords.enum.foldl (fun d p => dictInsert d p.2.1 (provider p.1 p.2.2)) []

/-- One completed resolution pass: the form was rendered, the user
submitted, and Streamlit re-runs `parse` with `form_submitted = True` and
the collected `input_values`. -/
def resolutionPass (fuel : Nat) (provider : Nat → String → PyVal) (st : PState)
    (text : String) : Except PyErr String :=
  kwParse fuel
    { st with inputValues := collectInputValues provider text, formSubmitted := true } text

/-- The sentinel handling of `fill.process_word_doc` (lines 160-172): when
the resolved value is the reserved `"[TABLE_INSERTED]"` marker the paragraph
text is cleared if the placeholder was the entire text, otherwise only the
placeholder span is removed; any other value is spliced in as text. -/
def processWordSentinel (origText : String) (startPos endPos : Nat) (replacement : String) :
    String :=
  if replacement = "[TABLE_INSERTED]" then
    if startPos = 0 ∧ endPos = origText.data.length then ""
    else String.mk (origText.data.take startPos ++ origText.data.drop endPos)
  else String.mk (origText.data.take startPos ++ replacement.data ++ origText.data.drop endPos)

def shXL : SheetData := ⟨fun r c => if r = 1 ∧ c = 1 then .pint 5 else .none, fun _ _ => "General", 1, 1⟩
def emXL : ExcelMgr := ⟨some ⟨[("Sheet1", shXL)]⟩⟩
def stXL : PState :=
  ⟨some emXL, false, true, [], fun _ => Option.none, fun _ => Option.none, "2026/10/12"⟩

example : processKeyword 10 stXL "XL!CELL!A1" = .ok (.pstr "5.00") := by decide
example : kwParse 10 stXL "\x7b\x7bXL!CELL!Bad@Ref\x7d\x7d and \x7b\x7bXL!CELL!A1\x7d\x7d" =
    .error (.nameError "content") := by decide
example : processKeyword 10 stXL "XL:CELL:A1" = .error (.nameError "content") := by decide

def jdItems : PyVal :=
  .pdict [("items", .plist [.pdict [("price", .pint 5)], .pdict [("price", .pint 7)]])]
def jdVals : PyVal := .pdict [("values", .plist [.pint 1, .pstr "2", .pint 3])]
def stJson : PState :=
  ⟨some ⟨Option.none⟩, false, true, [], fun _ => Option.none,
   fun f => if f = "data.json" then some jdItems else if f = "vals.json" then some jdVals
            else Option.none, "2026/10/12"⟩

example : processJsonKeyword 10 stJson "data.json!$.items[1].price" = .ok (.pint 7) := by decide
example : processJsonKeyword 10 stJson "vals.json!$.values!SUM" = .ok (.pfloat ⟨6, 1⟩) := by decide

def providerTwo : Nat → String → PyVal := fun i _ => .pstr (if i = 0 then "A" else "B")
def stPlain : PState :=
  ⟨Option.none, false, false, [], fun _ => Option.none, fun _ => Option.none, "2026/10/12"⟩

example :
    resolutionPass 10 providerTwo stPlain
      "X \x7b\x7bINPUT!text!Name!\x7d\x7d and \x7b\x7bINPUT!text!Name!\x7d\x7d" =
    .ok "X B and B" := by decide

def shTen : SheetData :=
  ⟨fun r c => if c = 1 ∧ (r = 1 ∨ r = 2 ∨ r = 3) then .pint (10 * r) else .none,
   fun _ _ => "General", 10, 1⟩

example : readTotal ⟨some ⟨[("S", shTen)]⟩⟩ "S" (.pint 1) (some 1) = .ok (.pstr "30.00") := by
  decide
example : formatNumericValue (.pfloat ⟨12345, 10⟩) false = .pstr "1,234.50" := by decide
example : formatNumericValue (.pfloat ⟨12345, 10⟩) true = .pstr "$1,234.50" := by decide

def shEmpty : SheetData := ⟨fun _ _ => .none, fun _ _ => "General", 5, 1⟩

def shABC : SheetData :=
  ⟨fun r c =>
    if c = 1 ∧ r = 1 then .pstr "A"
    else if c = 1 ∧ r = 2 then .pstr "B"
    else if c = 1 ∧ r = 3 then .pstr "C"
    else .none,
   fun _ _ => "General", 10, 1⟩
def emABC : ExcelMgr := ⟨some ⟨[("S", shABC)]⟩⟩

def shTwo : SheetData :=
  ⟨fun r c => if (1 ≤ r ∧ r ≤ 2) ∧ 1 ≤ c ∧ c ≤ 2 then .pint (r * 10 + c) else .none,
   fun _ _ => "General", 2, 2⟩
def emTwo : ExcelMgr := ⟨some ⟨[("Sheet1", shTwo)]⟩⟩
def stWord : PState :=
  ⟨some emTwo, true, true, [], fun _ => Option.none, fun _ => Option.none, "2026/10/12"⟩

def shCur : SheetData :=
  ⟨fun r c => if r = 1 ∧ c = 1 then .pfloat ⟨12345, 10⟩ else .none,
   fun _ _ => "$#,##0.00", 1, 1⟩
def emCur : ExcelMgr := ⟨some ⟨[("S", shCur)]⟩⟩

/-! ### Lemmas about the downward scans -/

theorem cons_getLast?_eq {α : Type} (a : α) (l : List α) :
    (a :: l).getLast? = some (l.getLastD a) := by
  induction l generalizing a with
  | nil => rfl
  | cons b t ih => rw [List.getLast?_cons_cons, ih, List.getLastD_cons]

theorem getLastD_as_getD {α : Type} : ∀ (l : List α) (a : α), l.getLastD a = (l.getLast?).getD a
  | [], _ => rfl
  | b :: t, a => by rw [List.getLastD_cons, cons_getLast?_eq, Option.getD_some, getLastD_as_getD t b]

theorem cons_getLast?_getD {α : Type} (a d : α) (l : List α) :
    ((a :: l).getLast?).getD d = (l.getLast?).getD a := by
  rw [cons_getLast?_eq, Option.getD_some, getLastD_as_getD]

/-- With a non-empty value already in hand, `read_total`'s loop returns the
formatted last entry of the leading non-empty run (or the held value when
the run is empty). -/
theorem readTotalLoop_some (sh : SheetData) (c : Int) :
    ∀ (n : Nat) (r : Int) (lv : PyVal) (lr : Int),
      readTotalLoop sh c n r (some (lv, lr)) =
        formatNumericValue
          ((((buildCol sh c n r).takeWhile (fun p => !isEmptyCell p.2)).getLast?.getD (lr, lv)).2)
          (isCurrencyAt sh
            ((((buildCol sh c n r).takeWhile (fun p => !isEmptyCell p.2)).getLast?.getD (lr, lv)).1)
            c) := by
  intro n
  induction n with
  | zero => intro r lv lr; rfl
  | succ n ih =>
    intro r lv lr
    by_cases h : isEmptyCell (sh.cells r c)
    · simp [readTotalLoop, buildCol, h, List.takeWhile_cons]
    · simp only [readTotalLoop, h, Bool.false_eq_true, if_false, buildCol,
        List.takeWhile_cons, Bool.not_false, if_true, ih, cons_getLast?_getD]

/-- Starting with nothing in hand, `read_total`'s loop skips leading empty
cells and returns the formatted last entry of the following non-empty run;
`PyVal.none` when there is none. -/
theorem readTotalLoop_none (sh : SheetData) (c : Int) :
    ∀ (n : Nat) (r : Int),
      readTotalLoop sh c n r Option.none =
        (match (((buildCol sh c n r).dropWhile (fun p => isEmptyCell p.2)).takeWhile
            (fun p => !isEmptyCell p.2)).getLast? with
         | Option.none => PyVal.none
         | some lp => formatNumericValue lp.2 (isCurrencyAt sh lp.1 c)) := by
  intro n
  induction n with
  | zero => intro r; rfl
  | succ n ih =>
    intro r
    by_cases h : isEmptyCell (sh.cells r c)
    · simp only [readTotalLoop, h, if_true, buildCol, List.dropWhile_cons]
      exact ih (r + 1)
    · simp only [readTotalLoop, h, Bool.false_eq_true, if_false, buildCol, List.dropWhile_cons,
        List.takeWhile_cons, Bool.not_false, if_true]
      rw [readTotalLoop_some, cons_getLast?_eq]
      simp [getLastD_as_getD]

/-- `read_items`' collection loop is the formatted leading non-empty run. -/
theorem readItemsLoop_eq (sh : SheetData) (c : Int) :
    ∀ (n : Nat) (r : Int),
      readItemsLoop sh c n r =
        ((buildCol sh c n r).takeWhile (fun p => !isEmptyCell p.2)).map
          (fun p => formatNumericValue p.2 (isCurrencyAt sh p.1 c)) := by
  intro n
  induction n with
  | zero => intro r; rfl
  | succ n ih =>
    intro r
    by_cases h : isEmptyCell (sh.cells r c)
    · simp [readItemsLoop, buildCol, h, List.takeWhile_cons]
    · simp [readItemsLoop, buildCol, h, List.takeWhile_cons, ih]

/-- Each row produced by `read_range` has one entry per requested column. -/
theorem readRangeRowLoop_length (sh : SheetData) (r : Int) :
    ∀ (n : Nat) (c : Int), (readRangeRowLoop sh r n c).length = n := by
  intro n
  induction n with
  | zero => intro c; rfl
  | succ n ih => intro c; simp [readRangeRowLoop, ih]

/-- The max-fold computing a table's column count only grows. -/
theorem foldl_max_init_le : ∀ (l : List (List PyVal)) (a : Nat),
    a ≤ l.foldl (fun m row => max m row.length) a := by
  intro l
  induction l with
  | nil => intro a; exact Nat.le_refl a
  | cons x t ih =>
    intro a
    exact Nat.le_trans (Nat.le_max_left a x.length) (ih (max a x.length))

/-- A table whose first row is non-empty is inserted into the document and
the sentinel is returned. -/
theorem createWordTable_sentinel (row : List PyVal) (rest : List (List PyVal))
    (h : row.length ≠ 0) : createWordTable (row :: rest) = .pstr "[TABLE_INSERTED]" := by
  have h6 : ¬((row :: rest).foldl (fun m row => max m row.length) 0 = 0) := by
    have h4 : (row :: rest).foldl (fun m row => max m row.length) 0 =
        rest.foldl (fun m row => max m row.length) (max 0 row.length) := rfl
    have h5 := foldl_max_init_le rest (max 0 row.length)
    omega
  unfold createWordTable
  rw [if_neg (by simp), if_neg h6]

/-! ### Lemmas about the INPUT dictionary -/

theorem mem_keys_dictInsert {α : Type} (k' k : String) (v : α) :
    ∀ (d : List (String × α)),
      k' ∈ (dictInsert d k v).map Prod.fst → k' ∈ d.map Prod.fst ∨ k' = k := by
  intro d
  induction d with
  | nil => intro h; simp [dictInsert] at h; exact Or.inr h
  | cons e rest ih =>
    obtain ⟨k0, v0⟩ := e
    by_cases he : k0 = k
    · intro h
      simp [dictInsert, he] at h
      rcases h with h | h
      · exact Or.inr h
      · exact Or.inl (by simp; exact Or.inr h)
    · intro h
      simp only [dictInsert, he, if_false, List.map_cons, List.mem_cons] at h
      rcases h with h | h
      · exact Or.inl (by simp [h])
      · rcases ih h with h2 | h2
        · exact Or.inl (List.mem_cons_of_mem _ h2)
        · exact Or.inr h2

theorem nodup_keys_dictInsert {α : Type} (k : String) (v : α) :
    ∀ (d : List (String × α)),
      (d.map Prod.fst).Nodup → ((dictInsert d k v).map Prod.fst).Nodup := by
  intro d
  induction d with
  | nil => intro _; simp [dictInsert]
  | cons e rest ih =>
    obtain ⟨k0, v0⟩ := e
    intro h
    simp only [List.map_cons, List.nodup_cons] at h
    by_cases he : k0 = k
    · simp only [dictInsert, he, if_true, List.map_cons, List.nodup_cons]
      exact ⟨he ▸ h.1, h.2⟩
    · simp only [dictInsert, he, if_false, List.map_cons, List.nodup_cons]
      refine ⟨fun hmem => ?_, ih h.2⟩
      rcases mem_keys_dictInsert k0 k v rest hmem with h2 | h2
      · exact h.1 h2
      · exact he h2

theorem nodup_keys_foldl_dictInsert {β : Type} (key : β → String) (val : β → PyVal) :
    ∀ (l : List β) (acc : List (String × PyVal)),
      (acc.map Prod.fst).Nodup →
      ((l.foldl (fun d b => dictInsert d (key b) (val b)) acc).map Prod.fst).Nodup := by
  intro l
  induction l with
  | nil => intro acc h; exact h
  | cons b t ih =>
    intro acc h
    exact ih (dictInsert acc (key b) (val b)) (nodup_keys_dictInsert (key b) (val b) acc h)

/-! ### The claims -/

/-- Claim C1: the spec's propagation policy says every sub-resolver failure
becomes a bracketed diagnostic and `parse` never raises, all other
placeholders still being resolved.  The code violates this: any exception
inside `_call_excel_method`'s `try:` block reaches an `except` handler whose
log message references the undefined name `content`
(`keyword_parser.py:439`), so a `NameError` escapes `parse` and the whole
pass aborts — here a malformed cell reference kills the pass even though a
second, well-formed placeholder follows.  A well-formed input, by contrast,
resolves. -/
theorem claim1_xl_failure_escapes_parse :
    kwParse 10 stXL "\x7b\x7bXL!CELL!Bad@Ref\x7d\x7d and \x7b\x7bXL!CELL!A1\x7d\x7d" =
        .error (.nameError "content") ∧
      kwParse 10 stXL "\x7b\x7bXL!CELL!A1\x7d\x7d" = .ok "5.00" :=
  ⟨by decide, by decide⟩

/-- Claim C2: `read_total` scans strictly downward tracking the last
non-empty value; it returns that value (formatted) at the first empty cell
after at least one non-empty value, or at the sheet's last row, and `None`
when only empty cells were seen.  Stated as: the result is the formatted
last entry of the first non-empty run of the column (leading empty cells
skipped), `None` when there is none; plus the spec's two concrete examples
(`[10, 20, 30, empty] ↦ 30` formatted, all empty ↦ not found). -/
theorem claim2_read_total_scan :
    (∀ (sh : SheetData) (r c : Int),
      readTotal ⟨some ⟨[("S", sh)]⟩⟩ "S" (.pint r) (some c) =
        .ok (match (((buildCol sh c ((sh.maxRow + 1 - r).toNat) r).dropWhile
            (fun p => isEmptyCell p.2)).takeWhile (fun p => !isEmptyCell p.2)).getLast? with
          | Option.none => PyVal.none
          | some lp => formatNumericValue lp.2 (isCurrencyAt sh lp.1 c))) ∧
      readTotal ⟨some ⟨[("S", shTen)]⟩⟩ "S" (.pint 1) (some 1) = .ok (.pstr "30.00") ∧
      readTotal ⟨some ⟨[("S", shEmpty)]⟩⟩ "S" (.pint 1) (some 1) = .ok PyVal.none := by
  refine ⟨fun sh r c => ?_, by decide, by decide⟩
  have base : readTotal ⟨some ⟨[("S", sh)]⟩⟩ "S" (.pint r) (some c) =
      Except.ok (readTotalLoop sh c ((sh.maxRow + 1 - r).toNat) r Option.none) := rfl
  rw [base, readTotalLoop_none]

/-- The trimming step of `read_items`: dropping `min(|k|, len)` items from
the end of the collected list is dropping the last `k`. -/
theorem readItems_offset_trim (items : List PyVal) (k : Nat) :
    (if ((k : Int) ≠ 0 ∧ items ≠ []) then
       Except.ok (ε := PyErr)
         (if 0 < min ((k : Int)).natAbs items.length then
            items.take (items.length - min ((k : Int)).natAbs items.length)
          else items)
     else .ok items) = .ok (items.take (items.length - k)) := by
  rcases k with _ | j
  · simp
  · by_cases hi : items = []
    · simp [hi]
    · have hne : ((j + 1 : Nat) : Int) ≠ 0 := by omega
      have hlen : 0 < items.length := List.length_pos.mpr hi
      rw [if_pos ⟨hne, hi⟩]
      have habs : (((j + 1 : Nat) : Int)).natAbs = j + 1 := rfl
      rw [habs, if_pos (by omega)]
      have harith : items.length - min (j + 1) items.length = items.length - (j + 1) := by omega
      rw [harith]

/-- Claim C3: `read_items` returns the formatted values of the consecutive
non-empty cells below the start (exclusive of the first empty cell), with
the last `offset` items dropped; plus the spec's `[A, B, C, empty]`
examples for offsets 0, 1 and ≥ length. -/
theorem claim3_read_items_offset :
    (∀ (sh : SheetData) (r c : Int) (k : Nat),
      readItems ⟨some ⟨[("S", sh)]⟩⟩ "S" (.pint r) (some c) (k : Int) =
        .ok ((((buildCol sh c ((sh.maxRow + 1 - r).toNat) r).takeWhile
            (fun p => !isEmptyCell p.2)).map
            (fun p => formatNumericValue p.2 (isCurrencyAt sh p.1 c))).take
          ((((buildCol sh c ((sh.maxRow + 1 - r).toNat) r).takeWhile
            (fun p => !isEmptyCell p.2)).map
            (fun p => formatNumericValue p.2 (isCurrencyAt sh p.1 c))).length - k))) ∧
      readItems emABC "S" (.pstr "A1") Option.none 0 =
        .ok [.pstr "A", .pstr "B", .pstr "C"] ∧
      readItems emABC "S" (.pstr "A1") Option.none 1 = .ok [.pstr "A", .pstr "B"] ∧
      readItems emABC "S" (.pstr "A1") Option.none 5 = .ok [] := by
  refine ⟨fun sh r c k => ?_, by decide, by decide, by decide⟩
  have base : readItems ⟨some ⟨[("S", sh)]⟩⟩ "S" (.pint r) (some c) (k : Int) =
      (if ((k : Int) ≠ 0 ∧ readItemsLoop sh c ((sh.maxRow + 1 - r).toNat) r ≠ []) then
         Except.ok
           (if 0 < min ((k : Int)).natAbs (readItemsLoop sh c ((sh.maxRow + 1 - r).toNat) r).length
            then (readItemsLoop sh c ((sh.maxRow + 1 - r).toNat) r).take
              ((readItemsLoop sh c ((sh.maxRow + 1 - r).toNat) r).length -
                min ((k : Int)).natAbs (readItemsLoop sh c ((sh.maxRow + 1 - r).toNat) r).length)
            else readItemsLoop sh c ((sh.maxRow + 1 - r).toNat) r)
       else .ok (readItemsLoop sh c ((sh.maxRow + 1 - r).toNat) r)) := rfl
  rw [base, readItems_offset_trim, readItemsLoop_eq]

/-- Claim C4: a RANGE placeholder over a non-empty block with a Word
document attached resolves to exactly the reserved sentinel
`"[TABLE_INSERTED]"` (the table itself being inserted structurally), and
the caller in `fill.process_word_doc` special-cases the sentinel: it clears
the paragraph when the placeholder was its entire text and removes only the
placeholder span otherwise.  Includes a concrete 2×2 end-to-end dispatch. -/
theorem claim4_range_sentinel :
    (∀ (sh : SheetData) (sr sc er ec : Int), sr ≤ er → sc ≤ ec →
      readRange ⟨some ⟨[("S", sh)]⟩⟩ "S" (.pint sr) (some (.pint sc)) (some (.pint er))
          (some (.pint ec)) = .ok (readRangeLoop sh sc ec ((er + 1 - sr).toNat) sr) ∧
        presentTableData true (readRangeLoop sh sc ec ((er + 1 - sr).toNat) sr) =
          .pstr "[TABLE_INSERTED]") ∧
      callExcelMethod stWord emTwo "RANGE" "A1:B2" = .ok (.pstr "[TABLE_INSERTED]") ∧
      (∀ (orig : String), processWordSentinel orig 0 orig.data.length "[TABLE_INSERTED]" = "") ∧
      (∀ (orig : String) (s e : Nat), ¬(s = 0 ∧ e = orig.data.length) →
        processWordSentinel orig s e "[TABLE_INSERTED]" =
          String.mk (orig.data.take s ++ orig.data.drop e)) := by
  refine ⟨fun sh sr sc er ec h1 h2 => ⟨rfl, ?_⟩, by decide, fun orig => ?_,
    fun orig s e hne => ?_⟩
  · obtain ⟨m, hm⟩ : ∃ m, (er + 1 - sr).toNat = m + 1 := ⟨(er + 1 - sr).toNat - 1, by omega⟩
    rw [hm]
    have hrow : (readRangeRowLoop sh sr ((ec + 1 - sc).toNat) sc).length ≠ 0 := by
      rw [readRangeRowLoop_length]; omega
    exact createWordTable_sentinel _ _ hrow
  · unfold processWordSentinel
    rw [if_pos rfl, if_pos ⟨rfl, rfl⟩]
  · unfold processWordSentinel
    rw [if_pos rfl, if_neg hne]

theorem claim4_range_sentinel_witness :
    readRange ⟨some ⟨[("S", shTwo)]⟩⟩ "S" (.pint 1) (some (.pint 1)) (some (.pint 2))
        (some (.pint 2)) = .ok (readRangeLoop shTwo 1 2 (((2 : Int) + 1 - 1).toNat) 1) ∧
      presentTableData true (readRangeLoop shTwo 1 2 (((2 : Int) + 1 - 1).toNat) 1) =
        .pstr "[TABLE_INSERTED]" :=
  claim4_range_sentinel.1 shTwo 1 1 2 2 (by decide) (by decide)

/-- Claim C5: the INPUT collection deduplicates by the full raw placeholder
(the dictionary's keys are distinct, so exactly one value is stored per raw
argument string), and a pass over a text with two identical INPUT
placeholders substitutes that one collected value at both occurrences (the
provider offers distinct per-occurrence values "A" and "B"; the dict keeps
one, and both occurrences render it). -/
theorem claim5_input_dedup :
    (∀ (provider : Nat → String → PyVal) (text : String),
      ((collectInputValues provider text).map Prod.fst).Nodup) ∧
      resolutionPass 10 providerTwo stPlain
          "X \x7b\x7bINPUT!text!Name!\x7d\x7d and \x7b\x7bINPUT!text!Name!\x7d\x7d" =
        .ok "X B and B" := by
  refine ⟨fun provider text => ?_, by decide⟩
  exact nodup_keys_foldl_dictInsert (fun (p : Nat × String × String) => p.2.1)
    (fun (p : Nat × String × String) => provider p.1 p.2.2) _ [] (by simp)

/-- Claim C6: the JSONPath evaluator rejects any path not starting with
`$.` with a diagnostic, and applies the dot-separated segments left to
right from the whole document: `$.items[1].price` over
`{"items": [{"price": 5}, {"price": 7}]}` gives `7`, and `$.values` with
`SUM` over `[1, "2", 3]` gives `6`. -/
theorem claim6_jsonpath :
    (∀ (fuel : Nat) (st : PState) (doc : PyVal) (path : String) (t : Option String),
      strStarts path "$." = false →
        evalJsonPath (fuel + 1) st doc path t =
          .ok (.pstr ("[Invalid JSONPath (must start with $.): " ++ path ++ "]"))) ∧
      processJsonKeyword 10 stJson "data.json!$.items[1].price" = .ok (.pint 7) ∧
      processJsonKeyword 10 stJson "vals.json!$.values!SUM" = .ok (.pfloat ⟨6, 1⟩) := by
  refine ⟨fun fuel st doc path t h => ?_, by decide, by decide⟩
  simp [evalJsonPath, h]

theorem claim6_jsonpath_witness :
    evalJsonPath 1 stJson (.pdict []) "items.price" Option.none =
      .ok (.pstr "[Invalid JSONPath (must start with $.): items.price]") :=
  claim6_jsonpath.1 0 stJson (.pdict []) "items.price" Option.none (by decide)

/-- Claim C7: on an input without any placeholder span, `parse` is the
identity (no spurious substitution), for any state and any remaining stack
depth. -/
theorem claim7_identity_on_plain_text :
    ∀ (fuel : Nat) (st : PState) (s : String),
      findPlaceholders s = [] → kwParse (fuel + 1) st s = .ok s := by
  intro fuel st s h
  by_cases hs : s = ""
  · subst hs; rfl
  · simp [kwParse, hs, h, kwParseLoop]

theorem claim7_identity_witness : kwParse 5 stPlain "hello world" = .ok "hello world" :=
  claim7_identity_on_plain_text 4 stPlain "hello world" (by decide)

/-- Claim C8: `read_cell` renders a numeric cell with thousands separators
and exactly two decimals, prefixed by `$` exactly when the cell's
number-format string (formula view) contains a currency symbol, and passes
a non-numeric (string) value through unchanged; `1234.5` renders as
`"1,234.50"`, and with a currency number format as `"$1,234.50"`. -/
theorem claim8_numeric_formatting :
    (∀ (sh : SheetData) (r c : Int) (n : Int), sh.cells r c = .pint n →
      readCell ⟨some ⟨[("S", sh)]⟩⟩ "S" (.pint r) (some c) =
        .ok (.pstr ((if isCurrencyAt sh r c then "$" else "") ++ formatFloat2 ⟨n, 1⟩))) ∧
      (∀ (sh : SheetData) (r c : Int) (q : PyFloat), sh.cells r c = .pfloat q →
        readCell ⟨some ⟨[("S", sh)]⟩⟩ "S" (.pint r) (some c) =
          .ok (.pstr ((if isCurrencyAt sh r c then "$" else "") ++ formatFloat2 q))) ∧
      (∀ (sh : SheetData) (r c : Int) (s : String), sh.cells r c = .pstr s →
        readCell ⟨some ⟨[("S", sh)]⟩⟩ "S" (.pint r) (some c) = .ok (.pstr s)) ∧
      formatFloat2 ⟨12345, 10⟩ = "1,234.50" ∧
      readCell emCur "S" (.pstr "A1") Option.none = .ok (.pstr "$1,234.50") := by
  have base : ∀ (sh : SheetData) (r c : Int),
      readCell ⟨some ⟨[("S", sh)]⟩⟩ "S" (.pint r) (some c) =
        Except.ok (formatNumericValue (sh.cells r c) (isCurrencyAt sh r c)) :=
    fun sh r c => rfl
  refine ⟨fun sh r c n h => ?_, fun sh r c q h => ?_, fun sh r c s h => ?_, by decide, by decide⟩
  · rw [base, h]
    by_cases hc : isCurrencyAt sh r c <;> simp [formatNumericValue, hc]
  · rw [base, h]
    by_cases hc : isCurrencyAt sh r c <;> simp [formatNumericValue, hc]
  · rw [base, h]; rfl

theorem claim8_numeric_formatting_witness :
    readCell ⟨some ⟨[("S", shTen)]⟩⟩ "S" (.pint 1) (some 1) =
      .ok (.pstr ((if isCurrencyAt shTen 1 1 then "$" else "") ++ formatFloat2 ⟨10, 1⟩)) :=
  claim8_numeric_formatting.1 shTen 1 1 10 (by decide)

/-- Claim C9 fails on the code: `:` is not an accepted legacy separator in
the resolver.  `{{XL!CELL!A1}}` reads the cell, while `{{XL:CELL:A1}}` is
classified as an unknown keyword type (its `:`-separated content is never
split), falls into the implicit RANGE fallback and errors instead of being
dispatched like the `!` form. -/
theorem claim9_colon_counterexample :
    processKeyword 10 stXL "XL!CELL!A1" = .ok (.pstr "5.00") ∧
      processKeyword 10 stXL "XL:CELL:A1" = .error (.nameError "content") :=
  ⟨by decide, by decide⟩

/-- Claim C9 (amended): the keyword type is the case-insensitive token
before the first `!` and the arguments are the rest of the `!`-split; a
`:`-written placeholder is not dispatched equivalently — it is treated as
an unknown keyword type and handed to the implicit `RANGE` fallback
(which fails for `XL:CELL:A1` instead of reading the cell). -/
theorem claim9_separator_amended :
    (∀ (fuel : Nat) (st : PState),
      processKeyword fuel st "Xl!CELL!A1" = processKeyword fuel st "XL!CELL!A1") ∧
      (∀ (fuel : Nat) (st : PState),
        processKeyword (fuel + 1) st "XL:CELL:A1" =
          processExcelKeyword st "RANGE!XL:CELL:A1") ∧
      processKeyword 10 stXL "XL!CELL!A1" = .ok (.pstr "5.00") := by
  refine ⟨fun fuel st => ?_, fun fuel st => ?_, by decide⟩
  · cases fuel with
    | zero => rfl
    | succ f =>
      simp only [processKeyword]
      rw [show pySplitOnce "Xl!CELL!A1" "!" = ["Xl", "CELL!A1"] from by decide,
        show pySplitOnce "XL!CELL!A1" "!" = ["XL", "CELL!A1"] from by decide,
        show pyUpper (pyStrip (List.headD ["Xl", "CELL!A1"] "")) = "XL" from by decide,
        show pyUpper (pyStrip (List.headD ["XL", "CELL!A1"] "")) = "XL" from by decide,
        if_pos rfl, if_pos rfl,
        show List.getD ["Xl", "CELL!A1"] 1 "" = "CELL!A1" from by decide,
        show List.getD ["XL", "CELL!A1"] 1 "" = "CELL!A1" from by decide]
  · simp only [processKeyword]
    rw [show pySplitOnce "XL:CELL:A1" "!" = ["XL:CELL:A1"] from by decide,
      show pyUpper (pyStrip (List.headD ["XL:CELL:A1"] "")) = "XL:CELL:A1" from by decide,
      if_neg (by decide), if_neg (by decide), if_neg (by decide), if_neg (by decide),
      show ("RANGE!" ++ "XL:CELL:A1" : String) = "RANGE!XL:CELL:A1" from by decide]

/-- Claim C10: a bracketed negative index `-k` with `k ≤ length` passes the
bounds check (which only rejects `index >= len(current)`) and selects the
`k`-th element from the array's end, not an out-of-range diagnostic. -/
theorem claim10_negative_json_index :
    ∀ (l : List PyVal) (s : String) (i : Int),
      pyIntParse s = some i → i < 0 → -i ≤ (l.length : Int) →
      jsonIndexStep (.plist l) s = .ok (.inr (l.getD (l.length - (-i).toNat) PyVal.none)) := by
  intro l s i hp hi hlen
  simp only [jsonIndexStep, hp, pyLen]
  rw [if_neg (show ¬((l.length : Int) ≤ i) by omega)]
  simp only [pySubscript]
  rw [if_pos hi, if_pos (show (0 : Int) ≤ (l.length : Int) + i ∧
    (l.length : Int) + i < (l.length : Int) by constructor <;> omega)]
  have heq : ((l.length : Int) + i).toNat = l.length - (-i).toNat := by omega
  simp [heq]

theorem claim10_negative_json_index_witness :
    jsonIndexStep (.plist [.pint 1, .pint 2, .pint 3]) "-1" = .ok (.inr (.pint 3)) :=
  (claim10_negative_json_index [.pint 1, .pint 2, .pint 3] "-1" (-1) (by decide) (by decide)
    (by decide)).trans (by decide)
